import Mathlib

/-
Shallow embedding of src/main.py: the provider configuration resolution engine
behind POST /start_call.

Modelling conventions:
- Python dicts are association lists (`Dict`) read through `dget`; the leftmost
  binding is the current value, so `dset` (dict assignment) conses and
  `dsetdefault` (dict.setdefault) only adds when the key is absent.
- Raised `HTTPException`s are `Except.error` values carrying status code and
  detail message; Python truthiness of strings ("" is falsy) is modelled by
  explicit comparisons with "".
- The process environment (os.getenv) and the request EnvironmentVariables
  model (only its set, non-None fields) are association lists of strings.
- The external vocode pydantic config classes (ChatGPTAgentConfig, ...) are out
  of scope per the spec; a builder returns the class name together with the
  final config dict (`SubConfig`).  Their required-parameter validation is
  modelled separately from the spec further below.
-/

/-- Values stored in a configuration dict.  src/main.py stores strings, ints and
floats (modelled as `Rat`), booleans, `BaseMessage(text=...)` objects and a
`PunctuationEndpointingConfig()` object. -/
inductive Val where
  | str (s : String)
  | num (q : Rat)
  | bool (b : Bool)
  | msg (text : String)
  | punctuationEndpointing
deriving DecidableEq

/-- A Python dict keyed by strings, modelled extensionally by an association
list: the leftmost binding for a key is its current value. -/
abbrev Dict := List (String × Val)

/-- The process environment, as read by os.getenv. -/
abbrev Env := List (String × String)

/-- The request EnvironmentVariables model (src/main.py lines 154-198): an
association from field name (e.g. "openai_api_key") to its value, listing only
fields that are set; getattr on an unset field yields none. -/
abbrev EnvVars := List (String × String)

def lookupStr {α : Type} (l : List (String × α)) (k : String) : Option α :=
  match l with
  | [] => none
  | (k2, v) :: rest => if k2 = k then some v else lookupStr rest k

/-- dict lookup (`config_dict[k]` / `k in config_dict`). -/
def dget (d : Dict) (k : String) : Option Val := lookupStr d k

/-- `k in config_dict`. -/
def dhas (d : Dict) (k : String) : Bool := (dget d k).isSome

/-- dict assignment `config_dict[k] = v`. -/
def dset (d : Dict) (k : String) (v : Val) : Dict := (k, v) :: d

/-- `config_dict.setdefault(k, v)`. -/
def dsetdefault (d : Dict) (k : String) (v : Val) : Dict :=
  if dhas d k then d else dset d k v

/-- A run of consecutive `setdefault` calls. -/
def applyDefaults (d : Dict) : List (String × Val) → Dict
  | [] => d
  | (k, v) :: rest => applyDefaults (dsetdefault d k v) rest

/-- fastapi.HTTPException as raised by src/main.py. -/
structure HTTPException where
  status_code : Nat
  detail : String
deriving DecidableEq

/-- The detail message of the HTTPException raised at src/main.py lines 234-237
when a required environment variable is found neither in the request override
nor in the process environment. -/
def missingMsg (env_key : String) : String :=
  "Required environment variable \x27" ++ env_key ++ "\x27 not found in request or system environment"

/-- The fallback tiers of get_env_value (src/main.py lines 228-237): the process
environment value if truthy, otherwise the 400 HTTPException. -/
def envFallback (env_key : String) (env : Env) : Except HTTPException String :=
  match lookupStr env env_key with
  | some v => if v = "" then .error ⟨400, missingMsg env_key⟩ else .ok v
  | none => .error ⟨400, missingMsg env_key⟩

/-- get_env_value (src/main.py lines 220-237): request override first (if the
request carries an EnvironmentVariables object and the field is set to a truthy
string), then the process environment, then HTTPException 400. -/
def get_env_value (request_env_vars : Option EnvVars) (key : String) (env_key : String)
    (env : Env) : Except HTTPException String :=
  match request_env_vars with
  | some evs =>
    match lookupStr evs key with
    | some v => if v = "" then envFallback env_key env else .ok v
    | none => envFallback env_key env
  | none => envFallback env_key env

/-- AGENT_CONFIG_MAP (src/main.py lines 120-127), mapping agent type names to
the (external) config class, identified here by its name. -/
def AGENT_CONFIG_MAP : List (String × String) :=
  [("chatgpt", "ChatGPTAgentConfig"),
   ("anthropic", "AnthropicAgentConfig"),
   ("groq", "GroqAgentConfig"),
   ("vertex_ai", "ChatVertexAIAgentConfig"),
   ("echo", "EchoAgentConfig"),
   ("llm", "LLMAgentConfig")]

/-- TRANSCRIBER_CONFIG_MAP (src/main.py lines 130-138). -/
def TRANSCRIBER_CONFIG_MAP : List (String × String) :=
  [("azure", "AzureTranscriberConfig"),
   ("deepgram", "DeepgramTranscriberConfig"),
   ("google", "GoogleTranscriberConfig"),
   ("assembly_ai", "AssemblyAITranscriberConfig"),
   ("whisper_cpp", "WhisperCPPTranscriberConfig"),
   ("rev_ai", "RevAITranscriberConfig"),
   ("gladia", "GladiaTranscriberConfig")]

/-- SYNTHESIZER_CONFIG_MAP (src/main.py lines 141-152). -/
def SYNTHESIZER_CONFIG_MAP : List (String × String) :=
  [("azure", "AzureSynthesizerConfig"),
   ("eleven_labs", "ElevenLabsSynthesizerConfig"),
   ("google", "GoogleSynthesizerConfig"),
   ("rime", "RimeSynthesizerConfig"),
   ("coqui", "CoquiSynthesizerConfig"),
   ("play_ht", "PlayHtSynthesizerConfig"),
   ("gtts", "GTTSSynthesizerConfig"),
   ("bark", "BarkSynthesizerConfig"),
   ("polly", "PollySynthesizerConfig"),
   ("cartesia", "CartesiaSynthesizerConfig")]

/-- DEFAULT_BOT_PROMPT (src/main.py lines 100-117), verbatim. -/
def DEFAULT_BOT_PROMPT : String :=
  "\nRole:\nYou are a native American lead debt relief consultant with 10 years of experience. You are connected with prospects on a phone call and you are cold calling them. Your voice carries the calm authority of a financial advisor who\x27s helped hundreds save money. Talk like a relatable US native.\nCore Mission:\nEducate → Qualify → Transfer in that exact order.\nNever let interruptions derail value delivery: Use the \"3-Second Benefit Reboot\" tactic (below).\n**Human voice tricks:**\nAfter any compliant user response (e.g., answering a question or agreeing to proceed), immediately reply with warm, professional appreciation—using a slightly brighter tone—then continue seamlessly.\nSound like native American: Use verbal fillers when appropriate, subtle vocal inflections, small talk, nods or usual talking skills so that user feels they are talking to a native american\nOn incomplete user queries (where user is taking his/her time to complete the sentences), Strictly use backchanneling cues only like \"Oh...\", \"Hmm...\", \"Um...\", \"\" and \"Uh-huh...\" etc to indicate active listening instead of generating response..\n**Exception Handling:**\nIn case of voicemail detection, end call and say good bye\nIf a user requests a language other than english, end the call by saying you will arrange a call back.\nIf a user asks to stop calling, end call and say good bye\nIn case user says they don\x27t have any debt, end call and say good bye\nIn case of call back or not interested scenario, try to convince the user with rebuttals two to three times.\nNever respond to users on the queries which are not related to the script.\n"

/-- AgentConfiguration (src/main.py lines 200-203). -/
structure AgentConfiguration where
  type : String
  config : Dict
deriving DecidableEq

/-- TranscriberConfiguration (src/main.py lines 205-208). -/
structure TranscriberConfiguration where
  type : String
  config : Dict
deriving DecidableEq

/-- SynthesizerConfiguration (src/main.py lines 210-213). -/
structure SynthesizerConfiguration where
  type : String
  config : Dict
deriving DecidableEq

/-- TelephonyConfiguration (src/main.py lines 215-218). -/
structure TelephonyConfiguration where
  type : String
  config : Dict
deriving DecidableEq

/-- The result of a builder: the selected (external) config class, identified by
name, together with the keyword arguments it is constructed with.  The pydantic
classes themselves live in the vocode library, outside this repository's single
source file; their required-parameter validation is modelled from the spec
separately below. -/
structure SubConfig where
  cname : String
  params : Dict
deriving DecidableEq

/-- The setdefault block of create_agent_config (src/main.py lines 266-271). -/
def agentSharedDefaults : List (String × Val) :=
  [("generate_responses", .bool true),
   ("send_filler_audio", .bool true),
   ("end_conversation_on_goodbye", .bool true),
   ("allow_agent_to_be_cut_off", .bool true),
   ("allowed_idle_time_seconds", .num 15),
   ("interrupt_sensitivity", .str "high")]

/-- The API-key if/elif chain of create_agent_config (src/main.py lines
273-288).  Each arm is guarded by the key being absent, wraps get_env_value in
try/except and swallows the failure (`pass`), so a resolution error leaves the
dict unchanged. -/
def agentApiKeyStep (ty : String) (d : Dict) (ev : Option EnvVars) (env : Env) : Dict :=
  if ty = "chatgpt" ∧ dhas d "openai_api_key" = false then
    match get_env_value ev "openai_api_key" "OPENAI_API_KEY" env with
    | .ok v => dset d "openai_api_key" (.str v)
    | .error _ => d
  else if ty = "anthropic" ∧ dhas d "api_key" = false then
    match get_env_value ev "anthropic_api_key" "ANTHROPIC_API_KEY" env with
    | .ok v => dset d "api_key" (.str v)
    | .error _ => d
  else if ty = "groq" ∧ dhas d "api_key" = false then
    match get_env_value ev "groq_api_key" "GROQ_API_KEY" env with
    | .ok v => dset d "api_key" (.str v)
    | .error _ => d
  else d

/-- create_agent_config (src/main.py lines 239-294).  A missing selector
defaults to chatgpt with an empty config; an unknown type raises HTTPException
400; the top-level prompt_preamble/initial_message overwrite the config dict
when truthy, else the defaults fill absent keys; then shared defaults, the
swallowed API-key step and the chatgpt model default. -/
def create_agent_config (aco : Option AgentConfiguration)
    (prompt_preamble initial_message : Option String)
    (ev : Option EnvVars) (env : Env) : Except HTTPException SubConfig :=
  let ac := aco.getD ⟨"chatgpt", []⟩
  match lookupStr AGENT_CONFIG_MAP ac.type with
  | none => .error ⟨400, "Unsupported agent type: " ++ ac.type⟩
  | some cname =>
    let d := ac.config
    let d := match prompt_preamble with
      | some p =>
        if p = "" then dsetdefault d "prompt_preamble" (.str DEFAULT_BOT_PROMPT)
        else dset d "prompt_preamble" (.str p)
      | none => dsetdefault d "prompt_preamble" (.str DEFAULT_BOT_PROMPT)
    let d := match initial_message with
      | some m =>
        if m = "" then dsetdefault d "initial_message" (.msg "Hi, How are you doing today?")
        else dset d "initial_message" (.msg m)
      | none => dsetdefault d "initial_message" (.msg "Hi, How are you doing today?")
    let d := applyDefaults d agentSharedDefaults
    let d := agentApiKeyStep ac.type d ev env
    let d := if ac.type = "chatgpt" ∧ dhas d "model_name" = false
             then dset d "model_name" (.str "gpt-4o") else d
    .ok ⟨cname, d⟩

/-- The setdefault block of create_transcriber_config (src/main.py lines
311-316). -/
def transcriberSharedDefaults : List (String × Val) :=
  [("sampling_rate", .num 8000),
   ("audio_encoding", .str "mulaw"),
   ("chunk_size", .num 3200),
   ("language", .str "en"),
   ("mute_during_speech", .bool false)]

/-- The API-key if/elif chain of create_transcriber_config (src/main.py lines
322-335).  These get_env_value calls are not wrapped in try/except, so a
resolution failure propagates; the azure arm assigns speech_region
unconditionally once speech_key is absent. -/
def transcriberSecretsStep (ty : String) (d : Dict) (ev : Option EnvVars) (env : Env) :
    Except HTTPException Dict :=
  if ty = "deepgram" ∧ dhas d "api_key" = false then
    match get_env_value ev "deepgram_api_key" "DEEPGRAM_API_KEY" env with
    | .error e => .error e
    | .ok v => .ok (dsetdefault (dset d "api_key" (.str v)) "model" (.str "nova-2"))
  else if ty = "azure" ∧ dhas d "speech_key" = false then
    match get_env_value ev "azure_speech_key" "AZURE_SPEECH_KEY" env with
    | .error e => .error e
    | .ok v1 =>
      match get_env_value ev "azure_speech_region" "AZURE_SPEECH_REGION" env with
      | .error e => .error e
      | .ok v2 => .ok (dset (dset d "speech_key" (.str v1)) "speech_region" (.str v2))
  else if ty = "assembly_ai" ∧ dhas d "api_key" = false then
    match get_env_value ev "assembly_ai_api_key" "ASSEMBLY_AI_API_KEY" env with
    | .error e => .error e
    | .ok v => .ok (dset d "api_key" (.str v))
  else if ty = "rev_ai" ∧ dhas d "api_key" = false then
    match get_env_value ev "rev_ai_api_key" "REV_AI_API_KEY" env with
    | .error e => .error e
    | .ok v => .ok (dset d "api_key" (.str v))
  else if ty = "gladia" ∧ dhas d "api_key" = false then
    match get_env_value ev "gladia_api_key" "GLADIA_API_KEY" env with
    | .error e => .error e
    | .ok v => .ok (dset d "api_key" (.str v))
  else .ok d

/-- create_transcriber_config (src/main.py lines 296-337): default deepgram
selector, unknown type raises 400, shared defaults, endpointing default, then
the secrets chain. -/
def create_transcriber_config (tco : Option TranscriberConfiguration)
    (ev : Option EnvVars) (env : Env) : Except HTTPException SubConfig :=
  let tc := tco.getD ⟨"deepgram", []⟩
  match lookupStr TRANSCRIBER_CONFIG_MAP tc.type with
  | none => .error ⟨400, "Unsupported transcriber type: " ++ tc.type⟩
  | some cname =>
    match transcriberSecretsStep tc.type
        (dsetdefault (applyDefaults tc.config transcriberSharedDefaults)
          "endpointing_config" .punctuationEndpointing) ev env with
    | .error e => .error e
    | .ok d => .ok ⟨cname, d⟩

/-- The setdefault block of create_synthesizer_config (src/main.py lines
354-356). -/
def synthesizerSharedDefaults : List (String × Val) :=
  [("sampling_rate", .num 8000),
   ("audio_encoding", .str "mulaw")]

/-- The eleven_labs setdefault block (src/main.py lines 367-373). -/
def elevenLabsDefaults : List (String × Val) :=
  [("optimize_streaming_latency", .num 1),
   ("experimental_streaming", .bool false),
   ("stability", .num (3 / 4)),
   ("similarity_boost", .num (3 / 4)),
   ("model_id", .str "eleven_flash_v2_5"),
   ("experimental_websocket", .bool false),
   ("backchannel_amplitude_factor", .num (1 / 2))]

/-- The azure synthesizer setdefault block (src/main.py lines 378-381). -/
def azureSynthDefaults : List (String × Val) :=
  [("voice_name", .str "en-US-SteffanNeural"),
   ("pitch", .num 0),
   ("rate", .num 15),
   ("language_code", .str "en-US")]

/-- The per-type secrets-and-defaults chain of create_synthesizer_config
(src/main.py lines 358-396).  api keys and credentials are assigned
unconditionally (no `not in config_dict` guard); the eleven_labs voice_id is
guarded and on resolution failure falls back to the built-in default voice
(lines 361-365, hoisted here into a setdefault of the pure get_env_value
result); polly's region_name setdefault evaluates its get_env_value argument
eagerly, so its failure propagates even when region_name is present. -/
def synthSecretsStep (ty : String) (d : Dict) (ev : Option EnvVars) (env : Env) :
    Except HTTPException Dict :=
  if ty = "eleven_labs" then
    match get_env_value ev "eleven_labs_api_key" "ELEVEN_LABS_API_KEY" env with
    | .error e => .error e
    | .ok v =>
      let d := dset d "api_key" (.str v)
      let d := dsetdefault d "voice_id"
        (.str (match get_env_value ev "eleven_labs_voice_id" "ELEVEN_LABS_VOICE_ID" env with
               | .ok w => w
               | .error _ => "9BWtsMINqrJLrRacOk9x"))
      .ok (applyDefaults d elevenLabsDefaults)
  else if ty = "azure" then
    match get_env_value ev "azure_speech_key" "AZURE_SPEECH_KEY" env with
    | .error e => .error e
    | .ok v1 =>
      match get_env_value ev "azure_speech_region" "AZURE_SPEECH_REGION" env with
      | .error e => .error e
      | .ok v2 =>
        .ok (applyDefaults (dset (dset d "speech_key" (.str v1)) "speech_region" (.str v2))
          azureSynthDefaults)
  else if ty = "play_ht" then
    match get_env_value ev "play_ht_api_key" "PLAY_HT_API_KEY" env with
    | .error e => .error e
    | .ok v1 =>
      match get_env_value ev "play_ht_user_id" "PLAY_HT_USER_ID" env with
      | .error e => .error e
      | .ok v2 => .ok (dset (dset d "api_key" (.str v1)) "user_id" (.str v2))
  else if ty = "rime" then
    match get_env_value ev "rime_api_key" "RIME_API_KEY" env with
    | .error e => .error e
    | .ok v => .ok (dset d "api_key" (.str v))
  else if ty = "cartesia" then
    match get_env_value ev "cartesia_api_key" "CARTESIA_API_KEY" env with
    | .error e => .error e
    | .ok v => .ok (dset d "api_key" (.str v))
  else if ty = "polly" then
    match get_env_value ev "aws_access_key_id" "AWS_ACCESS_KEY_ID" env with
    | .error e => .error e
    | .ok v1 =>
      match get_env_value ev "aws_secret_access_key" "AWS_SECRET_ACCESS_KEY" env with
      | .error e => .error e
      | .ok v2 =>
        match get_env_value ev "aws_region" "AWS_REGION" env with
        | .error e => .error e
        | .ok r =>
          .ok (dsetdefault (dset (dset d "aws_access_key_id" (.str v1))
                "aws_secret_access_key" (.str v2)) "region_name" (.str r))
  else .ok d

/-- create_synthesizer_config (src/main.py lines 339-398): default eleven_labs
selector, unknown type raises 400, shared defaults, then the per-type chain. -/
def create_synthesizer_config (sco : Option SynthesizerConfiguration)
    (ev : Option EnvVars) (env : Env) : Except HTTPException SubConfig :=
  let sc := sco.getD ⟨"eleven_labs", []⟩
  match lookupStr SYNTHESIZER_CONFIG_MAP sc.type with
  | none => .error ⟨400, "Unsupported synthesizer type: " ++ sc.type⟩
  | some cname =>
    match synthSecretsStep sc.type (applyDefaults sc.config synthesizerSharedDefaults) ev env with
    | .error e => .error e
    | .ok d => .ok ⟨cname, d⟩

/-- create_telephony_config (src/main.py lines 400-414): default twilio
selector; for twilio, account_sid and auth_token are assigned unconditionally
from get_env_value (failures propagate); any other type raises 400. -/
def create_telephony_config (tco : Option TelephonyConfiguration)
    (ev : Option EnvVars) (env : Env) : Except HTTPException SubConfig :=
  let lc := tco.getD ⟨"twilio", []⟩
  if lc.type = "twilio" then
    match get_env_value ev "twilio_account_sid" "TWILIO_ACCOUNT_SID" env with
    | .error e => .error e
    | .ok sid =>
      match get_env_value ev "twilio_auth_token" "TWILIO_AUTH_TOKEN" env with
      | .error e => .error e
      | .ok tok =>
        .ok ⟨"TwilioConfig", dset (dset lc.config "account_sid" (.str sid)) "auth_token" (.str tok)⟩
  else .error ⟨400, "Unsupported telephony type: " ++ lc.type⟩

/-- CallRequest (src/main.py lines 416-435). -/
structure CallRequest where
  to_phone : String
  env_vars : Option EnvVars
  agent : Option AgentConfiguration
  transcriber : Option TranscriberConfiguration
  synthesizer : Option SynthesizerConfiguration
  telephony : Option TelephonyConfiguration
  base_url : Option String
  from_phone : Option String
  prompt_preamble : Option String
  initial_message : Option String
  webhooks : Option (List String)
deriving DecidableEq

/-- A CallRequest with only to_phone set (all optional fields at their pydantic
defaults). -/
def requestWithDefaults (to_phone : String) : CallRequest :=
  ⟨to_phone, none, none, none, none, none, none, none, none, none, none⟩

/-- The from_phone resolution of start_call (src/main.py lines 452-454):
the request field when truthy, else get_env_value on TWILIO_PHONE_NUMBER. -/
def resolve_from_phone (req : CallRequest) (env : Env) : Except HTTPException String :=
  match req.from_phone with
  | some s =>
    if s = "" then get_env_value req.env_vars "twilio_phone_number" "TWILIO_PHONE_NUMBER" env
    else .ok s
  | none => get_env_value req.env_vars "twilio_phone_number" "TWILIO_PHONE_NUMBER" env

/-- The immutable aggregate assembled inside start_call before dispatch. -/
structure ResolvedConfigs where
  from_phone : String
  agent : SubConfig
  transcriber : SubConfig
  synthesizer : SubConfig
  telephony : SubConfig
deriving DecidableEq

/-- The resolution pipeline of start_call (src/main.py lines 452-477), in
source order: from_phone, then the agent, transcriber, synthesizer and
telephony builders; the first raised HTTPException aborts the rest. -/
def resolve_configs (req : CallRequest) (env : Env) : Except HTTPException ResolvedConfigs :=
  match resolve_from_phone req env with
  | .error e => .error e
  | .ok fp =>
    match create_agent_config req.agent req.prompt_preamble req.initial_message req.env_vars env with
    | .error e => .error e
    | .ok a =>
      match create_transcriber_config req.transcriber req.env_vars env with
      | .error e => .error e
      | .ok t =>
        match create_synthesizer_config req.synthesizer req.env_vars env with
        | .error e => .error e
        | .ok s =>
          match create_telephony_config req.telephony req.env_vars env with
          | .error e => .error e
          | .ok l => .ok ⟨fp, a, t, s, l⟩

/-- The keyword arguments of the OutboundCall constructed at src/main.py lines
480-490. -/
structure OutboundCallArgs where
  base_url : String
  to_phone : String
  from_phone : String
  agent_config : SubConfig
  telephony_config : SubConfig
  transcriber_config : SubConfig
  synthesizer_config : SubConfig
  webhooks : List String
deriving DecidableEq

/-- The dict returned by OutboundCall.start (read with response.get at
src/main.py lines 503-504, so absent keys become none). -/
structure DispatchResp where
  conversation_id : Option String
  telephony_id : Option String
deriving DecidableEq

/-- The external conversation engine: OutboundCall.start, out of scope per the
spec.  An error carries str(e) of the raised exception. -/
abbrev Dispatch := OutboundCallArgs → Except String DispatchResp

/-- An exception escaping the try block of start_call: either an HTTPException
raised during resolution, a validation failure of an external config-class
constructor (modelled from the spec below), or a dispatch failure. -/
inductive CallErr where
  | http (e : HTTPException)
  | validationErr (cname : String) (missing : List String)
  | dispatchFail (cause : String)
deriving DecidableEq

/-- str(e) for the exception kinds above.  starlette renders an HTTPException
as "status_code: detail"; the constructor-validation rendering is modelled from
the spec (the real pydantic message also names the missing fields). -/
def errStr : CallErr → String
  | .http e => toString e.status_code ++ ": " ++ e.detail
  | .validationErr cname missing =>
      "validation error for " ++ cname ++ ": missing " ++ String.intercalate ", " missing
  | .dispatchFail cause => cause

/-- The blanket handler of start_call (src/main.py lines 510-512): every
exception from the try block, HTTPException(400) included, is re-raised as
HTTPException(500, "Failed to start call: " + str(e)). -/
def wrap500 (e : CallErr) : HTTPException :=
  ⟨500, "Failed to start call: " ++ errStr e⟩

/-- The configuration echo in the 200 response (src/main.py lines 497-502). -/
structure ConfigurationEcho where
  agent_type : String
  transcriber_type : String
  synthesizer_type : String
  telephony_type : String
deriving DecidableEq

/-- The 200 response body of start_call (src/main.py lines 495-508). -/
structure StartCallResponse where
  message : String
  configuration : ConfigurationEcho
  execution_id : Option String
  telephony_id : Option String
  to_phone : String
  from_phone : String
  webhooks : List String
deriving DecidableEq

/-- request.base_url or BASE_URL (src/main.py line 449). -/
def callBaseUrl (req : CallRequest) (base : String) : String :=
  match req.base_url with
  | some b => if b = "" then base else b
  | none => base

/-- The OutboundCall arguments of src/main.py lines 480-490. -/
def dispatchArgs (base : String) (req : CallRequest) (rc : ResolvedConfigs) : OutboundCallArgs :=
  ⟨callBaseUrl req base, req.to_phone, rc.from_phone, rc.agent, rc.telephony,
   rc.transcriber, rc.synthesizer, req.webhooks.getD []⟩

/-- The 200 response body assembled at src/main.py lines 495-508. -/
def assembleResponse (req : CallRequest) (rc : ResolvedConfigs) (resp : DispatchResp) :
    StartCallResponse :=
  { message := "Call started to " ++ req.to_phone
    configuration :=
      ⟨(req.agent.map AgentConfiguration.type).getD "chatgpt",
       (req.transcriber.map TranscriberConfiguration.type).getD "deepgram",
       (req.synthesizer.map SynthesizerConfiguration.type).getD "eleven_labs",
       (req.telephony.map TelephonyConfiguration.type).getD "twilio"⟩
    execution_id := resp.conversation_id
    telephony_id := resp.telephony_id
    to_phone := req.to_phone
    from_phone := rc.from_phone
    webhooks := req.webhooks.getD [] }

/-- start_call (src/main.py lines 437-512): resolve everything, dispatch the
OutboundCall, assemble the 200 body; any exception along the way is wrapped by
the blanket handler into HTTPException 500. -/
def start_call (dispatch : Dispatch) (base : String) (req : CallRequest) (env : Env) :
    Except HTTPException StartCallResponse :=
  match resolve_configs req env with
  | .error e => .error (wrap500 (.http e))
  | .ok rc =>
    match dispatch (dispatchArgs base req rc) with
    | .error cause => .error (wrap500 (.dispatchFail cause))
    | .ok resp => .ok (assembleResponse req rc resp)

/-- Modelled from the spec: the required-parameter validation performed by the
external provider config-class constructors (the `agent_class(**config_dict)`
calls at src/main.py lines 294, 337, 398, 412 construct pydantic models from
the vocode library, which is outside this repository's source file).  Per spec
section 4.3 step 7, a configuration whose required parameters are still absent
after defaulting is rejected, reporting the missing field names.  The required
parameter names per class are unknown here, so they are a parameter
(`reqOf`). -/
def missingRequired (required : List String) (d : Dict) : List String :=
  required.filter (fun k => !dhas d k)

/-- Modelled from the spec: the first constructor-validation failure among the
four sub-configurations, checked in the source's builder order.  In the source
each check happens inside its builder at the constructor call; the position
does not affect which exception the blanket handler of start_call wraps. -/
def validationFirstErr (reqOf : String → List String) (rc : ResolvedConfigs) : Option CallErr :=
  match missingRequired (reqOf rc.agent.cname) rc.agent.params with
  | [] =>
    match missingRequired (reqOf rc.transcriber.cname) rc.transcriber.params with
    | [] =>
      match missingRequired (reqOf rc.synthesizer.cname) rc.synthesizer.params with
      | [] =>
        match missingRequired (reqOf rc.telephony.cname) rc.telephony.params with
        | [] => none
        | ms => some (.validationErr rc.telephony.cname ms)
      | ms => some (.validationErr rc.synthesizer.cname ms)
    | ms => some (.validationErr rc.transcriber.cname ms)
  | ms => some (.validationErr rc.agent.cname ms)

/-- Modelled from the spec: start_call with the external constructors'
required-parameter validation included.  A validation failure is an exception
inside the try block, so the blanket handler wraps it into HTTPException 500
exactly like every other failure. -/
def start_call_checked (reqOf : String → List String) (dispatch : Dispatch) (base : String)
    (req : CallRequest) (env : Env) : Except HTTPException StartCallResponse :=
  match resolve_configs req env with
  | .error e => .error (wrap500 (.http e))
  | .ok rc =>
    match validationFirstErr reqOf rc with
    | some ce => .error (wrap500 ce)
    | none =>
      match dispatch (dispatchArgs base req rc) with
      | .error cause => .error (wrap500 (.dispatchFail cause))
      | .ok resp => .ok (assembleResponse req rc resp)

/-- The secret keys a synthesizer type assigns unconditionally (no
`not in config_dict` guard) in src/main.py lines 358-396, so a caller-supplied
value for them is overwritten by the environment-resolved one. -/
def synthUnconditionalKeys : String → List String
  | "eleven_labs" => ["api_key"]
  | "azure" => ["speech_key", "speech_region"]
  | "play_ht" => ["api_key", "user_id"]
  | "rime" => ["api_key"]
  | "cartesia" => ["api_key"]
  | "polly" => ["aws_access_key_id", "aws_secret_access_key"]
  | _ => []

/-- A dispatch stub standing for a successful OutboundCall.start. -/
def dispatchOk : Dispatch := fun _ => .ok ⟨some "conv-1", some "tel-1"⟩

/-- Placeholder sub-configuration (only used as an Option.getD default). -/
def emptySub : SubConfig := ⟨"", []⟩

/-- Placeholder aggregate (only used as an Option.getD default). -/
def emptyResolved : ResolvedConfigs := ⟨"", emptySub, emptySub, emptySub, emptySub⟩

/-- Concrete request for exercising C1: from_phone supplied, unsupported agent
type "bogus". -/
def c1req : CallRequest :=
  { requestWithDefaults "+15550001111" with
      from_phone := some "+15550002222", agent := some ⟨"bogus", []⟩ }

/-- Concrete request for exercising C6 (spec end-to-end scenario B): an
unsupported transcriber type. -/
def c6req : CallRequest :=
  { requestWithDefaults "+15550001111" with
      from_phone := some "+15550009999", transcriber := some ⟨"unknownProvider", []⟩ }

/-- The agent configuration resolved for c6req against the empty environment
(the chatgpt default with the OPENAI_API_KEY failure swallowed). -/
def c6agent : SubConfig :=
  (create_agent_config none none none none []).toOption.getD emptySub

/-- Concrete request for exercising C7: a whisper_cpp transcriber with an empty
config, whose builder touches no secrets. -/
def c7req : CallRequest :=
  { requestWithDefaults "+15550001111" with
      from_phone := some "+15550003333", transcriber := some ⟨"whisper_cpp", []⟩ }

/-- Environment for c7req: just enough for the default synthesizer and
telephony builders to succeed. -/
def c7env : Env :=
  [("ELEVEN_LABS_API_KEY", "el-key"), ("TWILIO_ACCOUNT_SID", "AC123"),
   ("TWILIO_AUTH_TOKEN", "token-1")]

/-- Modelled from the spec: a sample required-parameter table for the external
config classes (spec section 3, ProviderSpec: "required parameter names").
vocode's WhisperCPP transcriber config requires a model file path that
src/main.py never defaults. -/
def c7reqOf : String → List String :=
  fun cname => if cname = "WhisperCPPTranscriberConfig" then ["fname_model"] else []

/-- The configurations resolved for c7req. -/
def c7rc : ResolvedConfigs := (resolve_configs c7req c7env).toOption.getD emptyResolved

/-- Environment for exercising C8 (spec end-to-end scenario A): every secret the
four default builders consult is present. -/
def c8env : Env :=
  [("TWILIO_PHONE_NUMBER", "+15559990000"), ("OPENAI_API_KEY", "sk-openai"),
   ("DEEPGRAM_API_KEY", "dg-key"), ("ELEVEN_LABS_API_KEY", "el-key"),
   ("ELEVEN_LABS_VOICE_ID", "voice-1"), ("TWILIO_ACCOUNT_SID", "AC123"),
   ("TWILIO_AUTH_TOKEN", "token-1")]

/-- Concrete agent selector for exercising C10: the parameter map supplies
prompt_preamble and initial_message alongside the top-level fields. -/
def c10ac : AgentConfiguration :=
  ⟨"chatgpt", [("prompt_preamble", .str "map-prompt"), ("initial_message", .msg "map-message")]⟩

/-- The agent configuration resolved for c10ac with top-level overrides. -/
def c10cfg : SubConfig :=
  (create_agent_config (some c10ac) (some "top-prompt") (some "top-message") none []).toOption.getD
    emptySub

/-- Concrete transcriber selector for exercising C4: the caller supplies the
deepgram api key in the parameter map. -/
def c4tc : TranscriberConfiguration := ⟨"deepgram", [("api_key", .str "caller-api-key")]⟩

/-- The transcriber configuration resolved for c4tc (no environment needed:
the caller-supplied key skips the secret lookup). -/
def c4cfgW : SubConfig := (create_transcriber_config (some c4tc) none []).toOption.getD emptySub

theorem dget_dset_self (d : Dict) (k : String) (v : Val) : dget (dset d k v) k = some v := by
  simp [dget, dset, lookupStr]

theorem dget_dset_ne (d : Dict) (k k2 : String) (v : Val) (h : k2 ≠ k) :
    dget (dset d k v) k2 = dget d k2 := by
  simp [dget, dset, lookupStr, Ne.symm h]

theorem dget_dsetdefault_some (d : Dict) (k2 : String) (v : Val) (k : String) (w : Val)
    (h : dget d k2 = some v) : dget (dsetdefault d k w) k2 = some v := by
  unfold dsetdefault
  split
  · exact h
  · next hk =>
    by_cases hkk : k2 = k
    · subst hkk
      rw [dhas, h] at hk
      simp at hk
    · rw [dget_dset_ne _ _ _ _ hkk]
      exact h

theorem dget_dsetdefault_ne (d : Dict) (k k2 : String) (w : Val) (h : k2 ≠ k) :
    dget (dsetdefault d k w) k2 = dget d k2 := by
  unfold dsetdefault
  split
  · rfl
  · exact dget_dset_ne _ _ _ _ h

theorem dget_applyDefaults_some (l : List (String × Val)) (d : Dict) (k : String) (v : Val)
    (h : dget d k = some v) : dget (applyDefaults d l) k = some v := by
  induction l generalizing d with
  | nil => exact h
  | cons p rest ih =>
    obtain ⟨pk, pv⟩ := p
    exact ih _ (dget_dsetdefault_some _ _ _ _ _ h)

theorem dget_applyDefaults_ne (l : List (String × Val)) (d : Dict) (k : String)
    (h : ∀ p ∈ l, k ≠ p.1) : dget (applyDefaults d l) k = dget d k := by
  induction l generalizing d with
  | nil => rfl
  | cons p rest ih =>
    obtain ⟨pk, pv⟩ := p
    show dget (applyDefaults (dsetdefault d pk pv) rest) k = dget d k
    rw [ih _ (fun q hq => h q (List.mem_cons_of_mem _ hq)),
      dget_dsetdefault_ne _ _ _ _ (h (pk, pv) (List.mem_cons_self _ _))]

/-- Assigning a key known to be absent does not disturb a present binding. -/
theorem dget_dset_of_guard (d : Dict) (kk k : String) (v w : Val)
    (h : dget d k = some v) (hguard : dhas d kk = false) : dget (dset d kk w) k = some v := by
  have hne : k ≠ kk := by
    intro he
    subst he
    rw [dhas, h] at hguard
    simp at hguard
  rw [dget_dset_ne _ _ _ _ hne]
  exact h

theorem agentApiKeyStep_preserve (ty : String) (d : Dict) (ev : Option EnvVars) (env : Env)
    (k : String) (v : Val) (h : dget d k = some v) :
    dget (agentApiKeyStep ty d ev env) k = some v := by
  unfold agentApiKeyStep
  split
  · next hc =>
    split
    · next => exact dget_dset_of_guard _ _ _ _ _ h hc.2
    · next => exact h
  · split
    · next hc =>
      split
      · next => exact dget_dset_of_guard _ _ _ _ _ h hc.2
      · next => exact h
    · split
      · next hc =>
        split
        · next => exact dget_dset_of_guard _ _ _ _ _ h hc.2
        · next => exact h
      · exact h

theorem transcriberSecretsStep_preserve (ty : String) (d : Dict) (ev : Option EnvVars)
    (env : Env) (d2 : Dict) (k : String) (v : Val)
    (h : dget d k = some v)
    (hx : ¬(ty = "azure" ∧ k = "speech_region" ∧ dhas d "speech_key" = false))
    (hok : transcriberSecretsStep ty d ev env = .ok d2) :
    dget d2 k = some v := by
  unfold transcriberSecretsStep at hok
  split at hok
  · next hc =>
    split at hok
    · simp at hok
    · next w hw =>
      injection hok with h2
      subst h2
      exact dget_dsetdefault_some _ _ _ _ _ (dget_dset_of_guard _ _ _ _ _ h hc.2)
  · split at hok
    · next hc =>
      have hkr : k ≠ "speech_region" := fun he => hx ⟨hc.1, he, hc.2⟩
      split at hok
      · simp at hok
      · next v1 hv1 =>
        split at hok
        · simp at hok
        · next v2 hv2 =>
          injection hok with h2
          subst h2
          rw [dget_dset_ne _ _ _ _ hkr]
          exact dget_dset_of_guard _ _ _ _ _ h hc.2
    · split at hok
      · next hc =>
        split at hok
        · simp at hok
        · next w hw =>
          injection hok with h2
          subst h2
          exact dget_dset_of_guard _ _ _ _ _ h hc.2
      · split at hok
        · next hc =>
          split at hok
          · simp at hok
          · next w hw =>
            injection hok with h2
            subst h2
            exact dget_dset_of_guard _ _ _ _ _ h hc.2
        · split at hok
          · next hc =>
            split at hok
            · simp at hok
            · next w hw =>
              injection hok with h2
              subst h2
              exact dget_dset_of_guard _ _ _ _ _ h hc.2
          · injection hok with h2
            subst h2
            exact h

theorem synthSecretsStep_preserve (ty : String) (d : Dict) (ev : Option EnvVars) (env : Env)
    (d2 : Dict) (k : String) (v : Val)
    (h : dget d k = some v)
    (hx : k ∉ synthUnconditionalKeys ty)
    (hok : synthSecretsStep ty d ev env = .ok d2) :
    dget d2 k = some v := by
  unfold synthSecretsStep at hok
  split at hok
  · next hc =>
    rw [hc] at hx
    simp only [synthUnconditionalKeys, List.mem_singleton] at hx
    split at hok
    · simp at hok
    · next w hw =>
      injection hok with h2
      subst h2
      refine dget_applyDefaults_some _ _ _ _ (dget_dsetdefault_some _ _ _ _ _ ?_)
      rw [dget_dset_ne _ _ _ _ hx]
      exact h
  · split at hok
    · next hc =>
      rw [hc] at hx
      simp only [synthUnconditionalKeys, List.mem_cons, List.not_mem_nil, or_false, not_or] at hx
      obtain ⟨hx1, hx2⟩ := hx
      split at hok
      · simp at hok
      · next v1 hv1 =>
        split at hok
        · simp at hok
        · next v2 hv2 =>
          injection hok with h2
          subst h2
          refine dget_applyDefaults_some _ _ _ _ ?_
          rw [dget_dset_ne _ _ _ _ hx2, dget_dset_ne _ _ _ _ hx1]
          exact h
    · split at hok
      · next hc =>
        rw [hc] at hx
        simp only [synthUnconditionalKeys, List.mem_cons, List.not_mem_nil, or_false, not_or] at hx
        obtain ⟨hx1, hx2⟩ := hx
        split at hok
        · simp at hok
        · next v1 hv1 =>
          split at hok
          · simp at hok
          · next v2 hv2 =>
            injection hok with h2
            subst h2
            rw [dget_dset_ne _ _ _ _ hx2, dget_dset_ne _ _ _ _ hx1]
            exact h
      · split at hok
        · next hc =>
          rw [hc] at hx
          simp only [synthUnconditionalKeys, List.mem_singleton] at hx
          split at hok
          · simp at hok
          · next w hw =>
            injection hok with h2
            subst h2
            rw [dget_dset_ne _ _ _ _ hx]
            exact h
        · split at hok
          · next hc =>
            rw [hc] at hx
            simp only [synthUnconditionalKeys, List.mem_singleton] at hx
            split at hok
            · simp at hok
            · next w hw =>
              injection hok with h2
              subst h2
              rw [dget_dset_ne _ _ _ _ hx]
              exact h
          · split at hok
            · next hc =>
              rw [hc] at hx
              simp only [synthUnconditionalKeys, List.mem_cons, List.not_mem_nil, or_false, not_or] at hx
              obtain ⟨hx1, hx2⟩ := hx
              split at hok
              · simp at hok
              · next v1 hv1 =>
                split at hok
                · simp at hok
                · next v2 hv2 =>
                  split at hok
                  · simp at hok
                  · next r hr =>
                    injection hok with h2
                    subst h2
                    refine dget_dsetdefault_some _ _ _ _ _ ?_
                    rw [dget_dset_ne _ _ _ _ hx2, dget_dset_ne _ _ _ _ hx1]
                    exact h
            · injection hok with h2
              subst h2
              exact h

theorem envFallback_ok_ne_empty (env_key : String) (env : Env) (v : String)
    (h : envFallback env_key env = .ok v) : v ≠ "" := by
  unfold envFallback at h
  split at h
  · next w hw =>
    split at h
    · simp at h
    · next hne =>
      injection h with h2
      subst h2
      exact hne
  · simp at h

theorem get_env_value_ok_ne_empty (rev : Option EnvVars) (key env_key : String) (env : Env)
    (v : String) (h : get_env_value rev key env_key env = .ok v) : v ≠ "" := by
  unfold get_env_value at h
  split at h
  · split at h
    · next w hw =>
      split at h
      · exact envFallback_ok_ne_empty _ _ _ h
      · next hne =>
        injection h with h2
        subst h2
        exact hne
    · exact envFallback_ok_ne_empty _ _ _ h
  · exact envFallback_ok_ne_empty _ _ _ h

theorem get_env_value_some (evs : EnvVars) (key env_key : String) (env : Env) :
    get_env_value (some evs) key env_key env =
      match lookupStr evs key with
      | some v => if v = "" then envFallback env_key env else .ok v
      | none => envFallback env_key env := rfl

/-- C2: for every secret key, a non-empty request override wins over a
conflicting process-environment value: get_env_value returns the override,
never the environment value. -/
theorem c2_override_beats_environment (evs : EnvVars) (key env_key : String) (env : Env)
    (v w : String) (hov : lookupStr evs key = some v) (hv : v ≠ "")
    (henv : lookupStr env env_key = some w) (hconf : w ≠ v) :
    get_env_value (some evs) key env_key env = .ok v ∧
    get_env_value (some evs) key env_key env ≠ .ok w := by
  have h1 : get_env_value (some evs) key env_key env = .ok v := by
    rw [get_env_value_some, hov]
    simp [hv]
  refine ⟨h1, ?_⟩
  rw [h1]
  intro h2
  injection h2 with h3
  exact hconf h3.symm

theorem c2_witness :
    get_env_value (some [("openai_api_key", "override-value")]) "openai_api_key"
        "OPENAI_API_KEY" [("OPENAI_API_KEY", "env-value")] = .ok "override-value" ∧
    get_env_value (some [("openai_api_key", "override-value")]) "openai_api_key"
        "OPENAI_API_KEY" [("OPENAI_API_KEY", "env-value")] ≠ .ok "env-value" :=
  c2_override_beats_environment _ _ _ _ _ _ rfl (by decide) rfl (by decide)

/-- C3: a secret absent from both the request override and the process
environment always fails with the canonical 400 error whose detail names
exactly the requested environment-variable name; since get_env_value is a pure
function of its inputs, repeated calls with the same inputs produce this same
error. -/
theorem c3_missing_secret_canonical_error (ev : Option EnvVars) (key env_key : String)
    (env : Env) (hov : ∀ evs, ev = some evs → lookupStr evs key = none)
    (henv : lookupStr env env_key = none) :
    get_env_value ev key env_key env = .error ⟨400, missingMsg env_key⟩ := by
  have hfb : envFallback env_key env = .error ⟨400, missingMsg env_key⟩ := by
    unfold envFallback
    rw [henv]
  cases ev with
  | none => exact hfb
  | some evs =>
    rw [get_env_value_some, hov evs rfl]
    exact hfb

theorem c3_witness :
    get_env_value none "deepgram_api_key" "DEEPGRAM_API_KEY" [] =
      .error ⟨400, missingMsg "DEEPGRAM_API_KEY"⟩ :=
  c3_missing_secret_canonical_error none "deepgram_api_key" "DEEPGRAM_API_KEY" []
    (fun _ h => Option.noConfusion h) rfl

/-- C9: an empty-string value is treated as absent at both tiers of
get_env_value: an empty override falls through to the environment tiers, an
empty environment value falls through to the 400 error, and a successful
lookup never returns the empty string. -/
theorem c9_empty_string_treated_as_absent (evs : EnvVars) (key env_key : String) (env : Env) :
    (lookupStr evs key = some "" →
       get_env_value (some evs) key env_key env = envFallback env_key env)
  ∧ (lookupStr env env_key = some "" →
       envFallback env_key env = .error ⟨400, missingMsg env_key⟩)
  ∧ (∀ (rev : Option EnvVars) (v : String),
       get_env_value rev key env_key env = .ok v → v ≠ "") := by
  refine ⟨?_, ?_, ?_⟩
  · intro hov
    rw [get_env_value_some, hov]
    simp
  · intro henv
    unfold envFallback
    rw [henv]
    simp
  · exact fun rev v h => get_env_value_ok_ne_empty rev key env_key env v h

theorem c9_witness :
    get_env_value (some [("eleven_labs_voice_id", "")]) "eleven_labs_voice_id"
        "ELEVEN_LABS_VOICE_ID" [("ELEVEN_LABS_VOICE_ID", "")] =
      envFallback "ELEVEN_LABS_VOICE_ID" [("ELEVEN_LABS_VOICE_ID", "")] ∧
    envFallback "ELEVEN_LABS_VOICE_ID" [("ELEVEN_LABS_VOICE_ID", "")] =
      .error ⟨400, missingMsg "ELEVEN_LABS_VOICE_ID"⟩ ∧
    "real-voice" ≠ "" :=
  ⟨(c9_empty_string_treated_as_absent [("eleven_labs_voice_id", "")] "eleven_labs_voice_id"
      "ELEVEN_LABS_VOICE_ID" [("ELEVEN_LABS_VOICE_ID", "")]).1 rfl,
   (c9_empty_string_treated_as_absent [("eleven_labs_voice_id", "")] "eleven_labs_voice_id"
      "ELEVEN_LABS_VOICE_ID" [("ELEVEN_LABS_VOICE_ID", "")]).2.1 rfl,
   (c9_empty_string_treated_as_absent [] "eleven_labs_voice_id" "ELEVEN_LABS_VOICE_ID"
      [("ELEVEN_LABS_VOICE_ID", "real-voice")]).2.2 none "real-voice" rfl⟩

/-- C1: the claim says resolution failures surface as HTTP 400 and only
dispatch failures as 500; in the code the blanket handler of start_call
(src/main.py lines 510-512) catches the builders' HTTPException(400) like any
other exception and re-raises HTTPException(500), so a resolution failure -
here an unsupported agent type - surfaces as status 500.  The first conjunct
shows the builder did raise the 400; the second shows the endpoint's actual
response is the rewrapped 500. -/
theorem c1_resolution_errors_rewrapped_as_500 :
    create_agent_config (some ⟨"bogus", []⟩) none none none [] =
      .error ⟨400, "Unsupported agent type: bogus"⟩ ∧
    start_call dispatchOk "test.base" c1req [] =
      .error ⟨500, "Failed to start call: 400: Unsupported agent type: bogus"⟩ :=
  ⟨rfl, rfl⟩

/-- C6: resolution is all-or-nothing in the fixed source order agent →
transcriber → synthesizer → telephony.  Conjunct 1: whenever the resolution
pipeline fails, the endpoint's response is exactly that first failure (wrapped
by the blanket handler) for every dispatch function, so OutboundCall.start is
never invoked.  Conjuncts 2-5: the error surfaced by the pipeline is the error
of the first failing builder in that order, irrespective of what any later
builder would do. -/
theorem c6_all_or_nothing_first_failure (req : CallRequest) (env : Env) (base : String) :
    (∀ e : HTTPException, resolve_configs req env = .error e →
       ∀ d : Dispatch, start_call d base req env = .error (wrap500 (.http e)))
  ∧ (∀ e : HTTPException,
       create_agent_config req.agent req.prompt_preamble req.initial_message req.env_vars env
         = .error e →
       ∀ fp : String, resolve_from_phone req env = .ok fp →
       resolve_configs req env = .error e)
  ∧ (∀ (e : HTTPException) (fp : String) (a : SubConfig),
       resolve_from_phone req env = .ok fp →
       create_agent_config req.agent req.prompt_preamble req.initial_message req.env_vars env
         = .ok a →
       create_transcriber_config req.transcriber req.env_vars env = .error e →
       resolve_configs req env = .error e)
  ∧ (∀ (e : HTTPException) (fp : String) (a t : SubConfig),
       resolve_from_phone req env = .ok fp →
       create_agent_config req.agent req.prompt_preamble req.initial_message req.env_vars env
         = .ok a →
       create_transcriber_config req.transcriber req.env_vars env = .ok t →
       create_synthesizer_config req.synthesizer req.env_vars env = .error e →
       resolve_configs req env = .error e)
  ∧ (∀ (e : HTTPException) (fp : String) (a t s : SubConfig),
       resolve_from_phone req env = .ok fp →
       create_agent_config req.agent req.prompt_preamble req.initial_message req.env_vars env
         = .ok a →
       create_transcriber_config req.transcriber req.env_vars env = .ok t →
       create_synthesizer_config req.synthesizer req.env_vars env = .ok s →
       create_telephony_config req.telephony req.env_vars env = .error e →
       resolve_configs req env = .error e) := by
  refine ⟨?_, ?_, ?_, ?_, ?_⟩
  · intro e hres d
    simp [start_call, hres]
  · intro e hag fp hfp
    simp [resolve_configs, hfp, hag]
  · intro e fp a hfp hag htr
    simp [resolve_configs, hfp, hag, htr]
  · intro e fp a t hfp hag htr hsy
    simp [resolve_configs, hfp, hag, htr, hsy]
  · intro e fp a t s hfp hag htr hsy htl
    simp [resolve_configs, hfp, hag, htr, hsy, htl]

theorem c6_witness :
    resolve_configs c6req [] =
      .error ⟨400, "Unsupported transcriber type: unknownProvider"⟩ ∧
    start_call dispatchOk "test.base" c6req [] =
      .error (wrap500 (.http ⟨400, "Unsupported transcriber type: unknownProvider"⟩)) :=
  ⟨(c6_all_or_nothing_first_failure c6req [] "test.base").2.2.1
      ⟨400, "Unsupported transcriber type: unknownProvider"⟩ "+15550009999" c6agent
      rfl rfl rfl,
   (c6_all_or_nothing_first_failure c6req [] "test.base").1
      ⟨400, "Unsupported transcriber type: unknownProvider"⟩ rfl dispatchOk⟩

/-- C8: spec end-to-end scenario A: a request carrying only a destination
number, against an environment holding every consulted secret, resolves
successfully with the default providers (agent chatgpt, transcriber deepgram,
synthesizer eleven_labs, telephony twilio) and the default prompt text, and the
endpoint's 200 response echoes those default type names. -/
theorem c8_default_request_resolves_with_defaults :
    (resolve_configs (requestWithDefaults "+15550001111") c8env).toOption.map
        (fun rc => (rc.agent.cname, rc.transcriber.cname, rc.synthesizer.cname,
          rc.telephony.cname, dget rc.agent.params "prompt_preamble")) =
      some ("ChatGPTAgentConfig", "DeepgramTranscriberConfig", "ElevenLabsSynthesizerConfig",
        "TwilioConfig", some (.str DEFAULT_BOT_PROMPT)) ∧
    (start_call dispatchOk "test.base" (requestWithDefaults "+15550001111") c8env).toOption.map
        StartCallResponse.configuration =
      some ⟨"chatgpt", "deepgram", "eleven_labs", "twilio"⟩ :=
  ⟨rfl, rfl⟩

/-- C10: when both a top-level field (prompt_preamble or initial_message,
supplied as a truthy string) and a same-named entry in the agent selector's
parameter map are given, the resolved agent configuration carries the top-level
value (src/main.py lines 254-263 assign unconditionally when the top-level
field is truthy). -/
theorem c10_top_level_fields_override_map (ac : AgentConfiguration) (p m : String)
    (w1 w2 : Val) (ev : Option EnvVars) (env : Env) (cfg : SubConfig)
    (hp : p ≠ "") (hm : m ≠ "")
    (h1 : dget ac.config "prompt_preamble" = some w1)
    (h2 : dget ac.config "initial_message" = some w2)
    (hok : create_agent_config (some ac) (some p) (some m) ev env = .ok cfg) :
    dget cfg.params "prompt_preamble" = some (.str p) ∧
    dget cfg.params "initial_message" = some (.msg m) := by
  simp only [create_agent_config, Option.getD] at hok
  rw [if_neg hp, if_neg hm] at hok
  split at hok
  · simp at hok
  · next cname heq =>
    injection hok with h3
    subst h3
    constructor
    · split
      · next hc =>
        refine dget_dset_of_guard _ _ _ _ _ ?_ hc.2
        refine agentApiKeyStep_preserve _ _ _ _ _ _ ?_
        refine dget_applyDefaults_some _ _ _ _ ?_
        rw [dget_dset_ne _ _ _ _ (by decide)]
        exact dget_dset_self _ _ _
      · refine agentApiKeyStep_preserve _ _ _ _ _ _ ?_
        refine dget_applyDefaults_some _ _ _ _ ?_
        rw [dget_dset_ne _ _ _ _ (by decide)]
        exact dget_dset_self _ _ _
    · split
      · next hc =>
        refine dget_dset_of_guard _ _ _ _ _ ?_ hc.2
        refine agentApiKeyStep_preserve _ _ _ _ _ _ ?_
        refine dget_applyDefaults_some _ _ _ _ ?_
        exact dget_dset_self _ _ _
      · refine agentApiKeyStep_preserve _ _ _ _ _ _ ?_
        refine dget_applyDefaults_some _ _ _ _ ?_
        exact dget_dset_self _ _ _

theorem c10_witness :
    dget c10cfg.params "prompt_preamble" = some (.str "top-prompt") ∧
    dget c10cfg.params "initial_message" = some (.msg "top-message") :=
  c10_top_level_fields_override_map c10ac "top-prompt" "top-message" (.str "map-prompt")
    (.msg "map-message") none [] c10cfg (by decide) (by decide) rfl rfl rfl

/-- C4 (counterexample): the claim says an explicitly supplied secret is never
overwritten; but create_synthesizer_config assigns the eleven_labs api_key
unconditionally (src/main.py line 360), so a caller-supplied api_key
"caller-key" is replaced by the environment-resolved override "override-key". -/
theorem c4_counterexample_secret_overwritten :
    (create_synthesizer_config (some ⟨"eleven_labs", [("api_key", Val.str "caller-key")]⟩)
        (some [("eleven_labs_api_key", "override-key")]) []).toOption.map
        (fun c => dget c.params "api_key") = some (some (.str "override-key")) ∧
    (create_synthesizer_config (some ⟨"eleven_labs", [("api_key", Val.str "caller-key")]⟩)
        (some [("eleven_labs_api_key", "override-key")]) []).toOption.map
        (fun c => dget c.params "api_key") ≠ some (some (.str "caller-key")) :=
  ⟨rfl, by decide⟩

/-- C4 (amended): shared defaults and provider-specific defaults fill only
parameters absent from the caller's map, and a caller-supplied value survives
resolution, except for the secrets the source assigns unconditionally: the
synthesizer credential keys of `synthUnconditionalKeys`, the telephony
account_sid/auth_token, and the azure transcriber's speech_region when
speech_key is absent from the map.  (Top-level prompt_preamble/initial_message
interplay is claim C10's subject; here they are absent.) -/
theorem c4_explicit_values_win_except_unconditional_secrets (ev : Option EnvVars) (env : Env)
    (k : String) (v : Val) :
    (∀ (ac : AgentConfiguration) (cfg : SubConfig),
       create_agent_config (some ac) none none ev env = .ok cfg →
       dget ac.config k = some v → dget cfg.params k = some v)
  ∧ (∀ (tc : TranscriberConfiguration) (cfg : SubConfig),
       create_transcriber_config (some tc) ev env = .ok cfg →
       dget tc.config k = some v →
       ¬(tc.type = "azure" ∧ k = "speech_region" ∧ dhas tc.config "speech_key" = false) →
       dget cfg.params k = some v)
  ∧ (∀ (sc : SynthesizerConfiguration) (cfg : SubConfig),
       create_synthesizer_config (some sc) ev env = .ok cfg →
       dget sc.config k = some v → k ∉ synthUnconditionalKeys sc.type →
       dget cfg.params k = some v)
  ∧ (∀ (lc : TelephonyConfiguration) (cfg : SubConfig),
       create_telephony_config (some lc) ev env = .ok cfg →
       dget lc.config k = some v → k ≠ "account_sid" → k ≠ "auth_token" →
       dget cfg.params k = some v) := by
  refine ⟨?_, ?_, ?_, ?_⟩
  · intro ac cfg hok hmem
    simp only [create_agent_config, Option.getD] at hok
    split at hok
    · simp at hok
    · next cname heq =>
      injection hok with h3
      subst h3
      split
      · next hc =>
        refine dget_dset_of_guard _ _ _ _ _ ?_ hc.2
        refine agentApiKeyStep_preserve _ _ _ _ _ _ ?_
        exact dget_applyDefaults_some _ _ _ _
          (dget_dsetdefault_some _ _ _ _ _ (dget_dsetdefault_some _ _ _ _ _ hmem))
      · refine agentApiKeyStep_preserve _ _ _ _ _ _ ?_
        exact dget_applyDefaults_some _ _ _ _
          (dget_dsetdefault_some _ _ _ _ _ (dget_dsetdefault_some _ _ _ _ _ hmem))
  · intro tc cfg hok hmem hx
    simp only [create_transcriber_config, Option.getD] at hok
    split at hok
    · simp at hok
    · next cname heq =>
      split at hok
      · simp at hok
      · next d2 hd2 =>
        injection hok with h3
        subst h3
        refine transcriberSecretsStep_preserve _ _ _ _ _ _ _
          (dget_dsetdefault_some _ _ _ _ _ (dget_applyDefaults_some _ _ _ _ hmem)) ?_ hd2
        intro hcon
        apply hx
        refine ⟨hcon.1, hcon.2.1, ?_⟩
        have heq2 : dget (dsetdefault (applyDefaults tc.config transcriberSharedDefaults)
            "endpointing_config" Val.punctuationEndpointing) "speech_key" =
            dget tc.config "speech_key" := by
          rw [dget_dsetdefault_ne _ _ _ _ (by decide),
            dget_applyDefaults_ne _ _ _ (by decide)]
        have h4 := hcon.2.2
        simp only [dhas] at h4 ⊢
        rw [heq2] at h4
        exact h4
  · intro sc cfg hok hmem hx
    simp only [create_synthesizer_config, Option.getD] at hok
    split at hok
    · simp at hok
    · next cname heq =>
      split at hok
      · simp at hok
      · next d2 hd2 =>
        injection hok with h3
        subst h3
        exact synthSecretsStep_preserve _ _ _ _ _ _ _
          (dget_applyDefaults_some _ _ _ _ hmem) hx hd2
  · intro lc cfg hok hmem hx1 hx2
    simp only [create_telephony_config, Option.getD] at hok
    split at hok
    · split at hok
      · simp at hok
      · next sid hsid =>
        split at hok
        · simp at hok
        · next tok htok =>
          injection hok with h3
          subst h3
          show dget (dset (dset lc.config "account_sid" (.str sid)) "auth_token" (.str tok)) k
            = some v
          rw [dget_dset_ne _ _ _ _ hx2, dget_dset_ne _ _ _ _ hx1]
          exact hmem
    · simp at hok

theorem c4_witness :
    dget c4cfgW.params "api_key" = some (.str "caller-api-key") :=
  (c4_explicit_values_win_except_unconditional_secrets none [] "api_key"
      (.str "caller-api-key")).2.1 c4tc c4cfgW rfl rfl (by decide)

/-- C5 (counterexample): spec scenario C says a synthesizer request
{type: eleven_labs, config: {}} with no voice-id override and no voice-id
environment value fails with MissingCredential naming the voice-id variable;
in the code (src/main.py lines 361-365) the builder instead succeeds, falling
back to the built-in default voice. -/
theorem c5_counterexample_voice_id_falls_back :
    (create_synthesizer_config (some ⟨"eleven_labs", []⟩) none
        [("ELEVEN_LABS_API_KEY", "sk-live")]).toOption.map
        (fun c => dget c.params "voice_id") = some (some (.str "9BWtsMINqrJLrRacOk9x")) :=
  rfl

/-- C5 (amended): a secret resolved without a guard propagates the
MissingCredential failure - the eleven_labs api key aborts the synthesizer
builder when absent from both override and environment (conjunct 1) - but the
eleven_labs voice id does not fail: the builder succeeds with the built-in
default voice (conjunct 2), and the agent builder swallows an unresolvable
API-key secret, succeeding without the key (conjunct 3). -/
theorem c5_missing_secret_propagation_amended (ev1 ev2 : Option EnvVars) (env1 env2 : Env)
    (e1 e2 e3 : HTTPException) (v : String)
    (hA1 : get_env_value ev1 "eleven_labs_api_key" "ELEVEN_LABS_API_KEY" env1 = .error e1)
    (hA2 : get_env_value ev2 "eleven_labs_api_key" "ELEVEN_LABS_API_KEY" env2 = .ok v)
    (hV : get_env_value ev2 "eleven_labs_voice_id" "ELEVEN_LABS_VOICE_ID" env2 = .error e2)
    (hO : get_env_value ev2 "openai_api_key" "OPENAI_API_KEY" env2 = .error e3) :
    create_synthesizer_config (some ⟨"eleven_labs", []⟩) ev1 env1 = .error e1 ∧
    (create_synthesizer_config (some ⟨"eleven_labs", []⟩) ev2 env2).toOption.map
        (fun c => dget c.params "voice_id") = some (some (.str "9BWtsMINqrJLrRacOk9x")) ∧
    (create_agent_config (some ⟨"chatgpt", []⟩) none none ev2 env2).toOption.map
        (fun c => dget c.params "openai_api_key") = some none := by
  refine ⟨?_, ?_, ?_⟩
  · simp [create_synthesizer_config, SYNTHESIZER_CONFIG_MAP, lookupStr, synthSecretsStep, hA1]
  · simp [create_synthesizer_config, SYNTHESIZER_CONFIG_MAP, lookupStr, synthSecretsStep,
      hA2, hV, synthesizerSharedDefaults, elevenLabsDefaults, applyDefaults, dsetdefault,
      dset, dget, dhas, Except.toOption]
  · simp [create_agent_config, AGENT_CONFIG_MAP, lookupStr, agentApiKeyStep, hO,
      agentSharedDefaults, applyDefaults, dsetdefault, dset, dget, dhas, Except.toOption,
      DEFAULT_BOT_PROMPT]

theorem c5_witness :
    create_synthesizer_config (some ⟨"eleven_labs", []⟩) none [] =
      .error ⟨400, missingMsg "ELEVEN_LABS_API_KEY"⟩ ∧
    (create_synthesizer_config (some ⟨"eleven_labs", []⟩) none
        [("ELEVEN_LABS_API_KEY", "el-key")]).toOption.map
        (fun c => dget c.params "voice_id") = some (some (.str "9BWtsMINqrJLrRacOk9x")) ∧
    (create_agent_config (some ⟨"chatgpt", []⟩) none none none
        [("ELEVEN_LABS_API_KEY", "el-key")]).toOption.map
        (fun c => dget c.params "openai_api_key") = some none :=
  c5_missing_secret_propagation_amended none none [] [("ELEVEN_LABS_API_KEY", "el-key")]
    ⟨400, missingMsg "ELEVEN_LABS_API_KEY"⟩ ⟨400, missingMsg "ELEVEN_LABS_VOICE_ID"⟩
    ⟨400, missingMsg "OPENAI_API_KEY"⟩ "el-key" rfl rfl rfl rfl

/-- C7: per the claim, a required parameter still absent after defaulting
should fail with ConfigurationError(domain, missingFields) and map to HTTP
400.  In the code there is no explicit validation pass: the (spec-modelled)
external constructor rejects the configuration naming the class and missing
fields but not the domain, and start_call's blanket handler (src/main.py lines
510-512) wraps that exception into HTTP 500, not 400: for every required-table
reqOf under which the agent passes and the transcriber is missing fields, the
endpoint answers status 500. -/
theorem c7_missing_required_params_surface_as_500 (reqOf : String → List String)
    (d : Dispatch) (base : String) (req : CallRequest) (env : Env) (rc : ResolvedConfigs)
    (ms : List String)
    (hres : resolve_configs req env = .ok rc)
    (hA : missingRequired (reqOf rc.agent.cname) rc.agent.params = [])
    (hT : missingRequired (reqOf rc.transcriber.cname) rc.transcriber.params = ms)
    (hne : ms ≠ []) :
    start_call_checked reqOf d base req env =
      .error ⟨500, "Failed to start call: " ++
        errStr (.validationErr rc.transcriber.cname ms)⟩ := by
  simp only [start_call_checked, hres]
  simp only [validationFirstErr, hA, hT]
  cases ms with
  | nil => exact absurd rfl hne
  | cons a l => rfl

theorem c7_witness :
    start_call_checked c7reqOf dispatchOk "test.base" c7req c7env =
      .error ⟨500, "Failed to start call: " ++
        errStr (.validationErr "WhisperCPPTranscriberConfig" ["fname_model"])⟩ :=
  c7_missing_required_params_surface_as_500 c7reqOf dispatchOk "test.base" c7req c7env c7rc
    ["fname_model"] rfl rfl rfl (by decide)
